import Mathlib

/-!
Verification of the gpsd wire-protocol type schema (`src/types.rs`).

The source is a pure serde schema: all decoding behaviour is determined by
the serde derive attributes on the type definitions.  We embed that
behaviour shallowly:

* JSON values are modelled by the inductive `Json`; JSON numbers are
  modelled as rationals (no floating-point arithmetic is ever performed by
  the schema, only presence/typing checks).
* serde struct deserialization of an object is modelled field by field:
  a required field errors when absent, an `Option` field decodes `null` or
  absence to `none`, a `default`-attributed field decodes absence to its
  declared default.  Duplicate known keys are an error; unknown keys are an
  error exactly when the container carries `deny_unknown_fields` (only
  `TpvResponse` does), and are ignored otherwise.
* `#[serde(untagged)]` enums (`TpvResponse`, `DeviceObject`) try their
  variants in declaration order and take the first success, failing with a
  no-matching-variant error when all fail.
* `#[serde(tag = "class")]` (`Response`) reads the `class` tag, errors on a
  missing/duplicated/unrecognized tag, and decodes the chosen payload from
  the object with the tag removed.
* `chrono::DateTime<FixedOffset>` is an external collaborator; its serde
  instance parses an RFC 3339 string.  We model it as a wrapper around the
  raw string guarded by a structural RFC 3339 validator (calendar range
  checks are out of scope, as the spec places timestamp parsing outside the
  core).
-/

namespace Gpsd

/-- A JSON value.  Numbers are modelled as rationals. -/
inductive Json : Type where
  | null : Json
  | bool (b : Bool) : Json
  | num (q : ℚ) : Json
  | str (s : String) : Json
  | arr (elems : List Json) : Json
  | obj (fields : List (String × Json)) : Json

/-- Decode errors, classifying the ways a serde decode of this schema can
fail. -/
inductive DecodeError : Type where
  | missingField (name : String) : DecodeError
  | unknownField (name : String) : DecodeError
  | duplicateField (name : String) : DecodeError
  | invalidType (name : String) : DecodeError
  | invalidValue (name : String) : DecodeError
  | unknownVariant (tag : String) : DecodeError
  | noMatchingVariant : DecodeError

/-- Did a decode succeed? -/
def decodeOk {α : Type} : Except DecodeError α → Bool
  | Except.ok _ => true
  | Except.error _ => false

/-- First value bound to key `k` in an object's field list (serde reads map
entries in order; for the schema's purposes only the first binding of a key
matters because a second binding of a known key is an error). -/
def lookupField : List (String × Json) → String → Option Json
  | [], _ => none
  | (k', v) :: rest, k => if k' = k then some v else lookupField rest k

/-- Does the object bind key `k`? -/
def containsKey (kvs : List (String × Json)) (k : String) : Bool :=
  (lookupField kvs k).isSome

/-- Number of bindings of key `k`. -/
def countKey : List (String × Json) → String → ℕ
  | [], _ => 0
  | (k', _) :: rest, k => (if k' = k then 1 else 0) + countKey rest k

/-- Remove every binding of key `k` (used to strip the `class` tag before
decoding an internally tagged payload). -/
def removeKey : List (String × Json) → String → List (String × Json)
  | [], _ => []
  | (k', v) :: rest, k =>
      if k' = k then removeKey rest k else (k', v) :: removeKey rest k

/-- Every key of the object is among `allowed`. -/
def keysIn : List (String × Json) → List String → Bool
  | [], _ => true
  | (k, _) :: rest, allowed => decide (k ∈ allowed) && keysIn rest allowed

/-- No key is bound twice. -/
def noDupKeys : List (String × Json) → Bool
  | [] => true
  | (k, _) :: rest => !(containsKey rest k) && noDupKeys rest

/-- Walk the object's entries as serde's struct visitor does: a second
binding of a known (`allowed`) key is a duplicate-field error; a key outside
the schema is an unknown-field error when `deny` is set
(`deny_unknown_fields`) and is ignored otherwise. -/
def checkObjAux (allowed : List String) (deny : Bool) :
    List String → List (String × Json) → Except DecodeError Unit
  | _, [] => Except.ok ()
  | seen, (k, _) :: rest =>
      if k ∈ allowed then
        if k ∈ seen then Except.error (DecodeError.duplicateField k)
        else checkObjAux allowed deny (k :: seen) rest
      else if deny then Except.error (DecodeError.unknownField k)
      else checkObjAux allowed deny seen rest

/-- Unknown/duplicate-field policy check for one object. -/
def checkObj (allowed : List String) (deny : Bool)
    (kvs : List (String × Json)) : Except DecodeError Unit :=
  checkObjAux allowed deny [] kvs

/-! ### Timestamps

`chrono::DateTime<FixedOffset>` deserializes from an RFC 3339 string; we
model the instant as the validated raw string. -/

/-- Exactly two decimal digits followed by the rest. -/
def twoDigits : List Char → Bool
  | a :: b :: [] => a.isDigit && b.isDigit
  | _ => false

/-- A numeric UTC offset `hh:mm`. -/
def validHM : List Char → Bool
  | h1 :: h2 :: ':' :: m1 :: m2 :: [] =>
      h1.isDigit && h2.isDigit && m1.isDigit && m2.isDigit
  | _ => false

/-- The offset part of an RFC 3339 timestamp: `Z` or a signed `hh:mm`. -/
def validOffset : List Char → Bool
  | ['Z'] => true
  | '+' :: rest => validHM rest
  | '-' :: rest => validHM rest
  | _ => false

/-- Optional fractional seconds, then the offset. -/
def validFracOffset : List Char → Bool
  | '.' :: rest =>
      (rest.takeWhile Char.isDigit).length > 0 &&
        validOffset (rest.dropWhile Char.isDigit)
  | rest => validOffset rest

/-- Structural validator for the RFC 3339 timestamps chrono accepts
(`YYYY-MM-DDThh:mm:ss[.frac](Z|+hh:mm|-hh:mm)`); calendar range checking is
the external library's concern and out of the modelled core. -/
def rfc3339Valid (s : String) : Bool :=
  match s.toList with
  | y1 :: y2 :: y3 :: y4 :: '-' :: mo1 :: mo2 :: '-' :: d1 :: d2 :: 'T' ::
      h1 :: h2 :: ':' :: mi1 :: mi2 :: ':' :: s1 :: s2 :: rest =>
      ([y1, y2, y3, y4, mo1, mo2, d1, d2, h1, h2, mi1, mi2, s1, s2].all
          Char.isDigit) && validFracOffset rest
  | _ => false

/-- An offset-aware instant: the validated RFC 3339 wire string. -/
structure DateTime : Type where
  raw : String
deriving DecidableEq

/-! ### Per-type field getters (serde field deserialization) -/

/-- Required `f64` field. -/
def getF64 (kvs : List (String × Json)) (k : String) :
    Except DecodeError ℚ :=
  match lookupField kvs k with
  | none => Except.error (DecodeError.missingField k)
  | some (Json.num q) => Except.ok q
  | some _ => Except.error (DecodeError.invalidType k)

/-- Optional `f64` (or `f32`) field: absent or `null` decodes to `none`. -/
def getOptF64 (kvs : List (String × Json)) (k : String) :
    Except DecodeError (Option ℚ) :=
  match lookupField kvs k with
  | none => Except.ok none
  | some Json.null => Except.ok none
  | some (Json.num q) => Except.ok (some q)
  | some _ => Except.error (DecodeError.invalidType k)

/-- Required `String` field. -/
def getString (kvs : List (String × Json)) (k : String) :
    Except DecodeError String :=
  match lookupField kvs k with
  | none => Except.error (DecodeError.missingField k)
  | some (Json.str s) => Except.ok s
  | some _ => Except.error (DecodeError.invalidType k)

/-- Optional `String` field. -/
def getOptString (kvs : List (String × Json)) (k : String) :
    Except DecodeError (Option String) :=
  match lookupField kvs k with
  | none => Except.ok none
  | some Json.null => Except.ok none
  | some (Json.str s) => Except.ok (some s)
  | some _ => Except.error (DecodeError.invalidType k)

/-- Required unsigned integer field with inclusive upper bound `hi`
(`u8`/`u16`/`u32` according to `hi`). -/
def getUInt (hi : ℤ) (kvs : List (String × Json)) (k : String) :
    Except DecodeError ℕ :=
  match lookupField kvs k with
  | none => Except.error (DecodeError.missingField k)
  | some (Json.num q) =>
      if q.den = 1 ∧ 0 ≤ q.num ∧ q.num ≤ hi then Except.ok q.num.toNat
      else Except.error (DecodeError.invalidValue k)
  | some _ => Except.error (DecodeError.invalidType k)

/-- Optional unsigned integer field with inclusive upper bound `hi`. -/
def getOptUInt (hi : ℤ) (kvs : List (String × Json)) (k : String) :
    Except DecodeError (Option ℕ) :=
  match lookupField kvs k with
  | none => Except.ok none
  | some Json.null => Except.ok none
  | some (Json.num q) =>
      if q.den = 1 ∧ 0 ≤ q.num ∧ q.num ≤ hi then Except.ok (some q.num.toNat)
      else Except.error (DecodeError.invalidValue k)
  | some _ => Except.error (DecodeError.invalidType k)

/-- Required `bool` field. -/
def getBool (kvs : List (String × Json)) (k : String) :
    Except DecodeError Bool :=
  match lookupField kvs k with
  | none => Except.error (DecodeError.missingField k)
  | some (Json.bool b) => Except.ok b
  | some _ => Except.error (DecodeError.invalidType k)

/-- `bool` field with a serde `default`: absent decodes to `dflt`. -/
def getBoolD (kvs : List (String × Json)) (k : String) (dflt : Bool) :
    Except DecodeError Bool :=
  match lookupField kvs k with
  | none => Except.ok dflt
  | some (Json.bool b) => Except.ok b
  | some _ => Except.error (DecodeError.invalidType k)

/-- Required `DateTime<FixedOffset>` field. -/
def getDateTime (kvs : List (String × Json)) (k : String) :
    Except DecodeError DateTime :=
  match lookupField kvs k with
  | none => Except.error (DecodeError.missingField k)
  | some (Json.str s) =>
      if rfc3339Valid s then Except.ok ⟨s⟩
      else Except.error (DecodeError.invalidValue k)
  | some _ => Except.error (DecodeError.invalidType k)

/-- Optional `DateTime<FixedOffset>` field. -/
def getOptDateTime (kvs : List (String × Json)) (k : String) :
    Except DecodeError (Option DateTime) :=
  match lookupField kvs k with
  | none => Except.ok none
  | some Json.null => Except.ok none
  | some (Json.str s) =>
      if rfc3339Valid s then Except.ok (some ⟨s⟩)
      else Except.error (DecodeError.invalidValue k)
  | some _ => Except.error (DecodeError.invalidType k)

/-- Required sequence field, each element decoded by `d`. -/
def getSeq {α : Type} (d : Json → Except DecodeError α)
    (kvs : List (String × Json)) (k : String) :
    Except DecodeError (List α) :=
  match lookupField kvs k with
  | none => Except.error (DecodeError.missingField k)
  | some (Json.arr xs) => xs.mapM d
  | some _ => Except.error (DecodeError.invalidType k)

/-! ### Well-typedness of individual fields, as predicates on the JSON -/

/-- If present, key `k` holds `null` or a number. -/
def optF64Ok (kvs : List (String × Json)) (k : String) : Bool :=
  match lookupField kvs k with
  | none => true
  | some Json.null => true
  | some (Json.num _) => true
  | some _ => false

/-- If present, key `k` holds `null` or a string. -/
def optStringOk (kvs : List (String × Json)) (k : String) : Bool :=
  match lookupField kvs k with
  | none => true
  | some Json.null => true
  | some (Json.str _) => true
  | some _ => false

/-- If present, key `k` holds `null` or an integer in `[0, hi]`. -/
def optUIntOk (hi : ℤ) (kvs : List (String × Json)) (k : String) : Bool :=
  match lookupField kvs k with
  | none => true
  | some Json.null => true
  | some (Json.num q) => decide (q.den = 1 ∧ 0 ≤ q.num ∧ q.num ≤ hi)
  | some _ => false

/-- If present, key `k` holds `null` or a valid RFC 3339 string. -/
def optDateTimeOk (kvs : List (String × Json)) (k : String) : Bool :=
  match lookupField kvs k with
  | none => true
  | some Json.null => true
  | some (Json.str s) => rfc3339Valid s
  | some _ => false

/-! ### TpvResponse — `#[serde(untagged, deny_unknown_fields)]` -/

/-- A time-position-velocity (TPV) report, with the source's three shapes in
declaration order (`FixWithCourse`, then `FixBasic`, then `Basic`). -/
inductive TpvResponse : Type where
  | fixWithCourse
      (device : Option String) (time : DateTime) (mode : ℕ) (time_err : ℚ)
      (lat : ℚ) (lat_err : Option ℚ) (lon : ℚ) (lon_err : Option ℚ)
      (alt : Option ℚ) (alt_err : Option ℚ)
      (track : ℚ) (track_err : Option ℚ)
      (speed : ℚ) (speed_err : Option ℚ)
      (climb : ℚ) (climb_err : Option ℚ) : TpvResponse
  | fixBasic
      (device : Option String) (time : DateTime) (mode : ℕ) (time_err : ℚ)
      (lat : ℚ) (lat_err : Option ℚ) (lon : ℚ) (lon_err : Option ℚ)
      (alt : Option ℚ) (alt_err : Option ℚ)
      (track : Option ℚ) (track_err : Option ℚ)
      (speed : Option ℚ) (speed_err : Option ℚ)
      (climb : Option ℚ) (climb_err : Option ℚ) : TpvResponse
  | basic
      (device : Option String) (time : Option DateTime) (mode : Option ℕ)
      (time_err : Option ℚ)
      (lat : Option ℚ) (lat_err : Option ℚ) (lon : Option ℚ)
      (lon_err : Option ℚ)
      (alt : Option ℚ) (alt_err : Option ℚ)
      (track : Option ℚ) (track_err : Option ℚ)
      (speed : Option ℚ) (speed_err : Option ℚ)
      (climb : Option ℚ) (climb_err : Option ℚ) : TpvResponse
deriving DecidableEq

/-- The wire keys of the TPV schema (identical across the three shapes;
`_err` fields use the renamed wire keys `ept`, `epy`, `epx`, `epv`, `epd`,
`eps`, `epc`). -/
def tpvKeys : List String :=
  ["device", "time", "mode", "ept", "lat", "epy", "lon", "epx", "alt",
   "epv", "track", "epd", "speed", "eps", "climb", "epc"]

/-- Decode the `FixWithCourse` shape from an object's fields
(`deny_unknown_fields` is in force). -/
def TpvResponse.fromFixWithCourse (kvs : List (String × Json)) :
    Except DecodeError TpvResponse := do
  checkObj tpvKeys true kvs
  let device ← getOptString kvs "device"
  let time ← getDateTime kvs "time"
  let mode ← getUInt 255 kvs "mode"
  let time_err ← getF64 kvs "ept"
  let lat ← getF64 kvs "lat"
  let lat_err ← getOptF64 kvs "epy"
  let lon ← getF64 kvs "lon"
  let lon_err ← getOptF64 kvs "epx"
  let alt ← getOptF64 kvs "alt"
  let alt_err ← getOptF64 kvs "epv"
  let track ← getF64 kvs "track"
  let track_err ← getOptF64 kvs "epd"
  let speed ← getF64 kvs "speed"
  let speed_err ← getOptF64 kvs "eps"
  let climb ← getF64 kvs "climb"
  let climb_err ← getOptF64 kvs "epc"
  Except.ok (TpvResponse.fixWithCourse device time mode time_err lat lat_err
    lon lon_err alt alt_err track track_err speed speed_err climb climb_err)

/-- Decode the `FixBasic` shape from an object's fields. -/
def TpvResponse.fromFixBasic (kvs : List (String × Json)) :
    Except DecodeError TpvResponse := do
  checkObj tpvKeys true kvs
  let device ← getOptString kvs "device"
  let time ← getDateTime kvs "time"
  let mode ← getUInt 255 kvs "mode"
  let time_err ← getF64 kvs "ept"
  let lat ← getF64 kvs "lat"
  let lat_err ← getOptF64 kvs "epy"
  let lon ← getF64 kvs "lon"
  let lon_err ← getOptF64 kvs "epx"
  let alt ← getOptF64 kvs "alt"
  let alt_err ← getOptF64 kvs "epv"
  let track ← getOptF64 kvs "track"
  let track_err ← getOptF64 kvs "epd"
  let speed ← getOptF64 kvs "speed"
  let speed_err ← getOptF64 kvs "eps"
  let climb ← getOptF64 kvs "climb"
  let climb_err ← getOptF64 kvs "epc"
  Except.ok (TpvResponse.fixBasic device time mode time_err lat lat_err
    lon lon_err alt alt_err track track_err speed speed_err climb climb_err)

/-- Decode the `Basic` shape from an object's fields. -/
def TpvResponse.fromBasic (kvs : List (String × Json)) :
    Except DecodeError TpvResponse := do
  checkObj tpvKeys true kvs
  let device ← getOptString kvs "device"
  let time ← getOptDateTime kvs "time"
  let mode ← getOptUInt 255 kvs "mode"
  let time_err ← getOptF64 kvs "ept"
  let lat ← getOptF64 kvs "lat"
  let lat_err ← getOptF64 kvs "epy"
  let lon ← getOptF64 kvs "lon"
  let lon_err ← getOptF64 kvs "epx"
  let alt ← getOptF64 kvs "alt"
  let alt_err ← getOptF64 kvs "epv"
  let track ← getOptF64 kvs "track"
  let track_err ← getOptF64 kvs "epd"
  let speed ← getOptF64 kvs "speed"
  let speed_err ← getOptF64 kvs "eps"
  let climb ← getOptF64 kvs "climb"
  let climb_err ← getOptF64 kvs "epc"
  Except.ok (TpvResponse.basic device time mode time_err lat lat_err
    lon lon_err alt alt_err track track_err speed speed_err climb climb_err)

/-- Untagged deserialization of `TpvResponse`: try the shapes in
declaration order, first success wins. -/
def TpvResponse.deserialize (j : Json) : Except DecodeError TpvResponse :=
  match j with
  | Json.obj kvs =>
      match TpvResponse.fromFixWithCourse kvs with
      | Except.ok v => Except.ok v
      | Except.error _ =>
          match TpvResponse.fromFixBasic kvs with
          | Except.ok v => Except.ok v
          | Except.error _ =>
              match TpvResponse.fromBasic kvs with
              | Except.ok v => Except.ok v
              | Except.error _ => Except.error DecodeError.noMatchingVariant
  | _ => Except.error DecodeError.noMatchingVariant

/-- Shape discriminator: is this the `FixWithCourse` shape? -/
def TpvResponse.isFixWithCourse : TpvResponse → Bool
  | TpvResponse.fixWithCourse .. => true
  | _ => false

/-- Shape discriminator: is this the `FixBasic` shape? -/
def TpvResponse.isFixBasic : TpvResponse → Bool
  | TpvResponse.fixBasic .. => true
  | _ => false

/-- Shape discriminator: is this the `Basic` shape? -/
def TpvResponse.isBasic : TpvResponse → Bool
  | TpvResponse.basic .. => true
  | _ => false

/-! ### SatelliteObject and SkyResponse -/

/-- A single satellite of a sky view. -/
structure SatelliteObject : Type where
  prn : ℕ
  azimuth : ℕ
  elevation : ℕ
  signal_strength : ℕ
  used : Bool
deriving DecidableEq

/-- Wire keys of `SatelliteObject` (`prn`/`azimuth`/`elevation`/signal
strength renamed to `PRN`/`az`/`el`/`ss`). -/
def satKeys : List String := ["PRN", "az", "el", "ss", "used"]

/-- Decode one `SatelliteObject` (plain struct: unknown fields ignored). -/
def SatelliteObject.deserialize (j : Json) :
    Except DecodeError SatelliteObject :=
  match j with
  | Json.obj kvs => do
      checkObj satKeys false kvs
      let prn ← getUInt 65535 kvs "PRN"
      let azimuth ← getUInt 4294967295 kvs "az"
      let elevation ← getUInt 4294967295 kvs "el"
      let signal_strength ← getUInt 4294967295 kvs "ss"
      let used ← getBool kvs "used"
      Except.ok ⟨prn, azimuth, elevation, signal_strength, used⟩
  | _ => Except.error (DecodeError.invalidType "SatelliteObject")

/-- A sky view (SKY) report. -/
structure SkyResponse : Type where
  device : Option String
  time : Option DateTime
  xdop : Option ℚ
  ydop : Option ℚ
  vdop : Option ℚ
  tdop : Option ℚ
  hdop : Option ℚ
  pdop : Option ℚ
  gdop : Option ℚ
  satellites : List SatelliteObject
deriving DecidableEq

/-- Wire keys of `SkyResponse`. -/
def skyKeys : List String :=
  ["device", "time", "xdop", "ydop", "vdop", "tdop", "hdop", "pdop",
   "gdop", "satellites"]

/-- Decode `SkyResponse` from an object's fields: every scalar is optional,
but `satellites` is a required sequence with no default. -/
def SkyResponse.fromFields (kvs : List (String × Json)) :
    Except DecodeError SkyResponse := do
  checkObj skyKeys false kvs
  let device ← getOptString kvs "device"
  let time ← getOptDateTime kvs "time"
  let xdop ← getOptF64 kvs "xdop"
  let ydop ← getOptF64 kvs "ydop"
  let vdop ← getOptF64 kvs "vdop"
  let tdop ← getOptF64 kvs "tdop"
  let hdop ← getOptF64 kvs "hdop"
  let pdop ← getOptF64 kvs "pdop"
  let gdop ← getOptF64 kvs "gdop"
  let satellites ← getSeq SatelliteObject.deserialize kvs "satellites"
  Except.ok ⟨device, time, xdop, ydop, vdop, tdop, hdop, pdop, gdop,
    satellites⟩

/-- Decode `SkyResponse` from a JSON value. -/
def SkyResponse.deserialize (j : Json) : Except DecodeError SkyResponse :=
  match j with
  | Json.obj kvs => SkyResponse.fromFields kvs
  | _ => Except.error (DecodeError.invalidType "SkyResponse")

/-! ### DeviceObject — `#[serde(untagged)]`, unknown fields tolerated -/

/-- A device record, with the source's three shapes in declaration order
(`ActiveSeenPackets`, then `Active`, then `Inactive`). -/
inductive DeviceObject : Type where
  | activeSeenPackets
      (path : Option String) (activated : DateTime) (flags : ℕ)
      (driver : String) (subtype : Option String) (bps : Option ℕ)
      (parity : Option String) (stopbits : Option String)
      (native : Option ℕ) (cycle : Option ℚ) (minicycle : Option ℚ) :
      DeviceObject
  | active
      (path : Option String) (activated : DateTime)
      (subtype : Option String) (bps : Option ℕ)
      (parity : Option String) (stopbits : Option String)
      (native : Option ℕ) (cycle : Option ℚ) (minicycle : Option ℚ) :
      DeviceObject
  | inactive (path : Option String) : DeviceObject
deriving DecidableEq

/-- Wire keys of the `ActiveSeenPackets` shape. -/
def deviceSeenKeys : List String :=
  ["path", "activated", "flags", "driver", "subtype", "bps", "parity",
   "stopbits", "native", "cycle", "minicycle"]

/-- Wire keys of the `Active` shape. -/
def deviceActiveKeys : List String :=
  ["path", "activated", "subtype", "bps", "parity", "stopbits", "native",
   "cycle", "minicycle"]

/-- Decode the `ActiveSeenPackets` shape (no `deny_unknown_fields`). -/
def DeviceObject.fromActiveSeenPackets (kvs : List (String × Json)) :
    Except DecodeError DeviceObject := do
  checkObj deviceSeenKeys false kvs
  let path ← getOptString kvs "path"
  let activated ← getDateTime kvs "activated"
  let flags ← getUInt 255 kvs "flags"
  let driver ← getString kvs "driver"
  let subtype ← getOptString kvs "subtype"
  let bps ← getOptUInt 4294967295 kvs "bps"
  let parity ← getOptString kvs "parity"
  let stopbits ← getOptString kvs "stopbits"
  let native ← getOptUInt 255 kvs "native"
  let cycle ← getOptF64 kvs "cycle"
  let minicycle ← getOptF64 kvs "minicycle"
  Except.ok (DeviceObject.activeSeenPackets path activated flags driver
    subtype bps parity stopbits native cycle minicycle)

/-- Decode the `Active` shape. -/
def DeviceObject.fromActive (kvs : List (String × Json)) :
    Except DecodeError DeviceObject := do
  checkObj deviceActiveKeys false kvs
  let path ← getOptString kvs "path"
  let activated ← getDateTime kvs "activated"
  let subtype ← getOptString kvs "subtype"
  let bps ← getOptUInt 4294967295 kvs "bps"
  let parity ← getOptString kvs "parity"
  let stopbits ← getOptString kvs "stopbits"
  let native ← getOptUInt 255 kvs "native"
  let cycle ← getOptF64 kvs "cycle"
  let minicycle ← getOptF64 kvs "minicycle"
  Except.ok (DeviceObject.active path activated subtype bps parity stopbits
    native cycle minicycle)

/-- Decode the `Inactive` shape. -/
def DeviceObject.fromInactive (kvs : List (String × Json)) :
    Except DecodeError DeviceObject := do
  checkObj ["path"] false kvs
  let path ← getOptString kvs "path"
  Except.ok (DeviceObject.inactive path)

/-- Untagged deserialization of `DeviceObject`: shapes tried in declaration
order, first success wins. -/
def DeviceObject.deserialize (j : Json) : Except DecodeError DeviceObject :=
  match j with
  | Json.obj kvs =>
      match DeviceObject.fromActiveSeenPackets kvs with
      | Except.ok v => Except.ok v
      | Except.error _ =>
          match DeviceObject.fromActive kvs with
          | Except.ok v => Except.ok v
          | Except.error _ =>
              match DeviceObject.fromInactive kvs with
              | Except.ok v => Except.ok v
              | Except.error _ => Except.error DecodeError.noMatchingVariant
  | _ => Except.error DecodeError.noMatchingVariant

/-- Shape discriminator: is this the `ActiveSeenPackets` shape? -/
def DeviceObject.isActiveSeenPackets : DeviceObject → Bool
  | DeviceObject.activeSeenPackets .. => true
  | _ => false

/-- Shape discriminator: is this the `Active` shape? -/
def DeviceObject.isActive : DeviceObject → Bool
  | DeviceObject.active .. => true
  | _ => false

/-- Shape discriminator: is this the `Inactive` shape? -/
def DeviceObject.isInactive : DeviceObject → Bool
  | DeviceObject.inactive .. => true
  | _ => false

/-! ### WatchObject — bidirectional (decode and encode) -/

/-- Watcher-mode configuration. -/
structure WatchObject : Type where
  enable : Bool
  json : Bool
  nmea : Bool
  raw : Option ℕ
  scaled : Bool
  split24 : Bool
  pps : Bool
  device : Option String
  remote : Option String
deriving DecidableEq

/-- The source's `Default` impl for `WatchObject`. -/
def WatchObject.default : WatchObject :=
  ⟨true, false, false, none, false, false, false, none, none⟩

/-- Wire keys of `WatchObject` (no renames in this schema). -/
def watchKeys : List String :=
  ["enable", "json", "nmea", "raw", "scaled", "split24", "pps", "device",
   "remote"]

/-- Serialize a `WatchObject` to an object's field list, as the serde
`Serialize` derive does: every field emitted in declaration order, `Option`
fields as `null` when `none` (the derive carries no skip attributes, so
nothing is omitted). -/
def WatchObject.serializeFields (w : WatchObject) : List (String × Json) :=
  [("enable", Json.bool w.enable),
   ("json", Json.bool w.json),
   ("nmea", Json.bool w.nmea),
   ("raw", match w.raw with
           | none => Json.null
           | some n => Json.num n),
   ("scaled", Json.bool w.scaled),
   ("split24", Json.bool w.split24),
   ("pps", Json.bool w.pps),
   ("device", match w.device with
              | none => Json.null
              | some s => Json.str s),
   ("remote", match w.remote with
              | none => Json.null
              | some s => Json.str s)]

/-- Serialize a `WatchObject` to wire JSON. -/
def WatchObject.serialize (w : WatchObject) : Json :=
  Json.obj w.serializeFields

/-- Decode `WatchObject` from an object's fields: the boolean fields carry
serde `default` attributes (`enable` defaults to true, the rest to false);
`raw`, `device`, `remote` are `Option` fields; unknown fields ignored. -/
def WatchObject.fromFields (kvs : List (String × Json)) :
    Except DecodeError WatchObject := do
  checkObj watchKeys false kvs
  let enable ← getBoolD kvs "enable" true
  let json ← getBoolD kvs "json" false
  let nmea ← getBoolD kvs "nmea" false
  let raw ← getOptUInt 4294967295 kvs "raw"
  let scaled ← getBoolD kvs "scaled" false
  let split24 ← getBoolD kvs "split24" false
  let pps ← getBoolD kvs "pps" false
  let device ← getOptString kvs "device"
  let remote ← getOptString kvs "remote"
  Except.ok ⟨enable, json, nmea, raw, scaled, split24, pps, device, remote⟩

/-- Decode `WatchObject` from a JSON value. -/
def WatchObject.deserialize (j : Json) : Except DecodeError WatchObject :=
  match j with
  | Json.obj kvs => WatchObject.fromFields kvs
  | _ => Except.error (DecodeError.invalidType "WatchObject")

/-! ### Response — `#[serde(tag = "class")]` -/

/-- A decoded top-level message, one constructor per wire `class` value. -/
inductive Response : Type where
  | tpv (t : TpvResponse) : Response
  | sky (s : SkyResponse) : Response
  | poll (time : DateTime) (active : ℕ) (tpv : List TpvResponse)
      (sky : List SkyResponse) : Response
  | device (d : DeviceObject) : Response
  | devices (devices : List DeviceObject) (remote : Option String) :
      Response
  | watch (w : WatchObject) : Response
  | version (release : String) (rev : String) (proto_major : ℕ)
      (proto_minor : ℕ) (remote : Option String) : Response
  | error (message : String) : Response
deriving DecidableEq

/-- Decode the `Poll` payload (struct variant; unknown fields ignored). -/
def Response.fromPoll (kvs : List (String × Json)) :
    Except DecodeError Response := do
  checkObj ["time", "active", "tpv", "sky"] false kvs
  let time ← getDateTime kvs "time"
  let active ← getUInt 4294967295 kvs "active"
  let tpv ← getSeq TpvResponse.deserialize kvs "tpv"
  let sky ← getSeq SkyResponse.deserialize kvs "sky"
  Except.ok (Response.poll time active tpv sky)

/-- Decode the `Devices` payload. -/
def Response.fromDevices (kvs : List (String × Json)) :
    Except DecodeError Response := do
  checkObj ["devices", "remote"] false kvs
  let devices ← getSeq DeviceObject.deserialize kvs "devices"
  let remote ← getOptString kvs "remote"
  Except.ok (Response.devices devices remote)

/-- Decode the `Version` payload. -/
def Response.fromVersion (kvs : List (String × Json)) :
    Except DecodeError Response := do
  checkObj ["release", "rev", "proto_major", "proto_minor", "remote"] false
    kvs
  let release ← getString kvs "release"
  let rev ← getString kvs "rev"
  let proto_major ← getUInt 4294967295 kvs "proto_major"
  let proto_minor ← getUInt 4294967295 kvs "proto_minor"
  let remote ← getOptString kvs "remote"
  Except.ok (Response.version release rev proto_major proto_minor remote)

/-- Decode the `Error` payload. -/
def Response.fromErrorPayload (kvs : List (String × Json)) :
    Except DecodeError Response := do
  checkObj ["message"] false kvs
  let message ← getString kvs "message"
  Except.ok (Response.error message)

/-- Internally tagged deserialization of `Response`: read the `class` tag
(missing, duplicated, non-string or unrecognized tags are hard errors —
the dispatcher never guesses), strip it, and decode the payload chosen by
the fixed tag table. -/
def Response.deserialize (j : Json) : Except DecodeError Response :=
  match j with
  | Json.obj kvs =>
      if 2 ≤ countKey kvs "class" then
        Except.error (DecodeError.duplicateField "class")
      else
        match lookupField kvs "class" with
        | none => Except.error (DecodeError.missingField "class")
        | some (Json.str tag) =>
            let rest := removeKey kvs "class"
            if tag = "TPV" then
              (TpvResponse.deserialize (Json.obj rest)).map Response.tpv
            else if tag = "SKY" then
              (SkyResponse.deserialize (Json.obj rest)).map Response.sky
            else if tag = "POLL" then Response.fromPoll rest
            else if tag = "DEVICE" then
              (DeviceObject.deserialize (Json.obj rest)).map Response.device
            else if tag = "DEVICES" then Response.fromDevices rest
            else if tag = "WATCH" then
              (WatchObject.fromFields rest).map Response.watch
            else if tag = "VERSION" then Response.fromVersion rest
            else if tag = "ERROR" then Response.fromErrorPayload rest
            else Except.error (DecodeError.unknownVariant tag)
        | some _ => Except.error (DecodeError.invalidType "class")
  | _ => Except.error (DecodeError.invalidType "Response")

/-- The eight recognized `class` tags. -/
def knownTag (t : String) : Bool :=
  decide (t = "TPV") || decide (t = "SKY") || decide (t = "POLL") ||
  decide (t = "DEVICE") || decide (t = "DEVICES") || decide (t = "WATCH") ||
  decide (t = "VERSION") || decide (t = "ERROR")

/-! ### General helper lemmas -/

@[simp]
theorem decodeOk_ok {α : Type} (a : α) :
    decodeOk (Except.ok a : Except DecodeError α) = true := rfl

@[simp]
theorem decodeOk_error {α : Type} (e : DecodeError) :
    decodeOk (Except.error e : Except DecodeError α) = false := rfl

@[simp]
theorem ok_bind {α β : Type} (a : α) (f : α → Except DecodeError β) :
    ((Except.ok a : Except DecodeError α) >>= f) = f a := rfl

@[simp]
theorem error_bind {α β : Type} (e : DecodeError)
    (f : α → Except DecodeError β) :
    ((Except.error e : Except DecodeError α) >>= f) = Except.error e := rfl

theorem bindOk {α β : Type} {x : Except DecodeError α}
    {f : α → Except DecodeError β}
    (h : decodeOk (x >>= f) = true) :
    ∃ a, x = Except.ok a ∧ decodeOk (f a) = true := by
  cases x with
  | ok a => exact ⟨a, rfl, h⟩
  | error e => simp at h

theorem decodeOk_false {α : Type} {x : Except DecodeError α}
    (h : decodeOk x = false) : ∃ e, x = Except.error e := by
  cases x with
  | ok a => simp at h
  | error e => exact ⟨e, rfl⟩

theorem containsKey_of_lookup {kvs : List (String × Json)} {k : String}
    {v : Json} (h : lookupField kvs k = some v) :
    containsKey kvs k = true := by
  simp [containsKey, h]

theorem countKey_eq_zero {kvs : List (String × Json)} {k : String}
    (h : lookupField kvs k = none) : countKey kvs k = 0 := by
  induction kvs with
  | nil => rfl
  | cons kv rest ih =>
      obtain ⟨k', v⟩ := kv
      by_cases hk : k' = k
      · simp [lookupField, hk] at h
      · simp only [lookupField, if_neg hk] at h
        simp [countKey, if_neg hk, ih h]

/-! ### Lemmas about the unknown/duplicate-field check -/

theorem containsKey_cons_of_rest {k k' : String} {v : Json}
    {rest : List (String × Json)} (h : containsKey rest k' = true) :
    containsKey ((k, v) :: rest) k' = true := by
  simp only [containsKey, lookupField]
  by_cases hkeq : k = k'
  · simp [hkeq]
  · simp only [if_neg hkeq]
    exact h

theorem checkObjAux_ok (allowed : List String) (deny : Bool) :
    ∀ (kvs : List (String × Json)) (seen : List String),
    noDupKeys kvs = true →
    (deny = true → keysIn kvs allowed = true) →
    (∀ k, containsKey kvs k = true → k ∉ seen) →
    checkObjAux allowed deny seen kvs = Except.ok () := by
  intro kvs
  induction kvs with
  | nil => intro seen _ _ _; rfl
  | cons kv rest ih =>
      obtain ⟨k, v⟩ := kv
      intro seen hnd hin hseen
      have hkk : containsKey ((k, v) :: rest) k = true := by
        simp [containsKey, lookupField]
      have hnd' := hnd
      simp only [noDupKeys, Bool.and_eq_true, Bool.not_eq_true'] at hnd'
      have hrest_nd : noDupKeys rest = true := hnd'.2
      have hk_not_rest : containsKey rest k = false := hnd'.1
      by_cases hall : k ∈ allowed
      · have hsk : k ∉ seen := hseen k hkk
        simp only [checkObjAux, if_pos hall, if_neg hsk]
        apply ih (k :: seen) hrest_nd
        · intro hd
          have := hin hd
          simp only [keysIn, Bool.and_eq_true, decide_eq_true_eq] at this
          exact this.2
        · intro k' hk'
          simp only [List.mem_cons, not_or]
          constructor
          · intro hkeq
            rw [hkeq] at hk'
            rw [hk'] at hk_not_rest
            cases hk_not_rest
          · exact hseen k' (containsKey_cons_of_rest hk')
      · cases hd : deny with
        | true =>
            have := hin hd
            simp only [keysIn, Bool.and_eq_true, decide_eq_true_eq] at this
            exact absurd this.1 hall
        | false =>
            subst hd
            simp only [checkObjAux, if_neg hall, Bool.false_eq_true,
              if_false]
            apply ih seen hrest_nd
            · intro hd2; exact absurd hd2 (by simp)
            · intro k' hk'
              exact hseen k' (containsKey_cons_of_rest hk')

theorem checkObj_ok {allowed : List String} {deny : Bool}
    {kvs : List (String × Json)}
    (hnd : noDupKeys kvs = true)
    (hin : deny = true → keysIn kvs allowed = true) :
    checkObj allowed deny kvs = Except.ok () := by
  apply checkObjAux_ok allowed deny kvs [] hnd hin
  intro k _
  simp

theorem checkObjAux_unknown (allowed : List String) :
    ∀ (kvs : List (String × Json)) (seen : List String),
    keysIn kvs allowed = false →
    decodeOk (checkObjAux allowed true seen kvs) = false := by
  intro kvs
  induction kvs with
  | nil => intro seen h; simp [keysIn] at h
  | cons kv rest ih =>
      obtain ⟨k, v⟩ := kv
      intro seen h
      by_cases hall : k ∈ allowed
      · have hrest : keysIn rest allowed = false := by
          simp only [keysIn] at h
          rw [decide_eq_true hall] at h
          simpa using h
        by_cases hsk : k ∈ seen
        · simp [checkObjAux, if_pos hall, if_pos hsk]
        · simp only [checkObjAux, if_pos hall, if_neg hsk]
          exact ih (k :: seen) hrest
      · simp [checkObjAux, if_neg hall]

theorem checkObj_unknown {allowed : List String}
    {kvs : List (String × Json)}
    (h : keysIn kvs allowed = false) :
    decodeOk (checkObj allowed true kvs) = false :=
  checkObjAux_unknown allowed kvs [] h

/-! ### Getter lemmas -/

theorem getOptString_ok {kvs : List (String × Json)} {k : String}
    (h : optStringOk kvs k = true) :
    ∃ r, getOptString kvs k = Except.ok r := by
  unfold optStringOk at h
  unfold getOptString
  cases hl : lookupField kvs k with
  | none => exact ⟨none, rfl⟩
  | some v =>
      rw [hl] at h
      cases v <;> simp_all

theorem getOptF64_ok {kvs : List (String × Json)} {k : String}
    (h : optF64Ok kvs k = true) :
    ∃ r, getOptF64 kvs k = Except.ok r := by
  unfold optF64Ok at h
  unfold getOptF64
  cases hl : lookupField kvs k with
  | none => exact ⟨none, rfl⟩
  | some v =>
      rw [hl] at h
      cases v <;> simp_all

theorem getOptUInt_ok {hi : ℤ} {kvs : List (String × Json)} {k : String}
    (h : optUIntOk hi kvs k = true) :
    ∃ r, getOptUInt hi kvs k = Except.ok r := by
  unfold optUIntOk at h
  unfold getOptUInt
  cases hl : lookupField kvs k with
  | none => exact ⟨none, rfl⟩
  | some v =>
      rw [hl] at h
      cases v <;> simp_all

theorem getOptDateTime_ok {kvs : List (String × Json)} {k : String}
    (h : optDateTimeOk kvs k = true) :
    ∃ r, getOptDateTime kvs k = Except.ok r := by
  unfold optDateTimeOk at h
  unfold getOptDateTime
  cases hl : lookupField kvs k with
  | none => exact ⟨none, rfl⟩
  | some v =>
      rw [hl] at h
      cases v <;> simp_all

theorem getF64_contains {kvs : List (String × Json)} {k : String} {a : ℚ}
    (h : getF64 kvs k = Except.ok a) : containsKey kvs k = true := by
  unfold getF64 at h
  cases hl : lookupField kvs k with
  | none => rw [hl] at h; cases h
  | some v => exact containsKey_of_lookup hl

theorem getDateTime_contains {kvs : List (String × Json)} {k : String}
    {a : DateTime} (h : getDateTime kvs k = Except.ok a) :
    containsKey kvs k = true := by
  unfold getDateTime at h
  cases hl : lookupField kvs k with
  | none => rw [hl] at h; cases h
  | some v => exact containsKey_of_lookup hl

theorem getUInt_contains {hi : ℤ} {kvs : List (String × Json)} {k : String}
    {a : ℕ} (h : getUInt hi kvs k = Except.ok a) :
    containsKey kvs k = true := by
  unfold getUInt at h
  cases hl : lookupField kvs k with
  | none => rw [hl] at h; cases h
  | some v => exact containsKey_of_lookup hl

theorem getSeq_contains {α : Type} {d : Json → Except DecodeError α}
    {kvs : List (String × Json)} {k : String} {xs : List α}
    (h : getSeq d kvs k = Except.ok xs) : containsKey kvs k = true := by
  unfold getSeq at h
  cases hl : lookupField kvs k with
  | none => rw [hl] at h; cases h
  | some v => exact containsKey_of_lookup hl

/-! ### Shape-specific presence lemmas: a successful decode of a shape
forces that shape's required fields to be present on the wire. -/

theorem fromFixWithCourse_requires {kvs : List (String × Json)}
    (h : decodeOk (TpvResponse.fromFixWithCourse kvs) = true) :
    containsKey kvs "lat" = true ∧ containsKey kvs "lon" = true ∧
    containsKey kvs "track" = true ∧ containsKey kvs "speed" = true ∧
    containsKey kvs "climb" = true := by
  unfold TpvResponse.fromFixWithCourse at h
  obtain ⟨_, _, h⟩ := bindOk h
  obtain ⟨_, _, h⟩ := bindOk h
  obtain ⟨_, _, h⟩ := bindOk h
  obtain ⟨_, _, h⟩ := bindOk h
  obtain ⟨_, _, h⟩ := bindOk h
  obtain ⟨_, hlat, h⟩ := bindOk h
  obtain ⟨_, _, h⟩ := bindOk h
  obtain ⟨_, hlon, h⟩ := bindOk h
  obtain ⟨_, _, h⟩ := bindOk h
  obtain ⟨_, _, h⟩ := bindOk h
  obtain ⟨_, _, h⟩ := bindOk h
  obtain ⟨_, htrack, h⟩ := bindOk h
  obtain ⟨_, _, h⟩ := bindOk h
  obtain ⟨_, hspeed, h⟩ := bindOk h
  obtain ⟨_, _, h⟩ := bindOk h
  obtain ⟨_, hclimb, h⟩ := bindOk h
  exact ⟨getF64_contains hlat, getF64_contains hlon,
    getF64_contains htrack, getF64_contains hspeed,
    getF64_contains hclimb⟩

theorem fromFixBasic_requires {kvs : List (String × Json)}
    (h : decodeOk (TpvResponse.fromFixBasic kvs) = true) :
    containsKey kvs "lat" = true ∧ containsKey kvs "lon" = true := by
  unfold TpvResponse.fromFixBasic at h
  obtain ⟨_, _, h⟩ := bindOk h
  obtain ⟨_, _, h⟩ := bindOk h
  obtain ⟨_, _, h⟩ := bindOk h
  obtain ⟨_, _, h⟩ := bindOk h
  obtain ⟨_, _, h⟩ := bindOk h
  obtain ⟨_, hlat, h⟩ := bindOk h
  obtain ⟨_, _, h⟩ := bindOk h
  obtain ⟨_, hlon, h⟩ := bindOk h
  exact ⟨getF64_contains hlat, getF64_contains hlon⟩

theorem fromActiveSeenPackets_requires {kvs : List (String × Json)}
    (h : decodeOk (DeviceObject.fromActiveSeenPackets kvs) = true) :
    containsKey kvs "activated" = true ∧ containsKey kvs "flags" = true ∧
    containsKey kvs "driver" = true := by
  unfold DeviceObject.fromActiveSeenPackets at h
  obtain ⟨_, _, h⟩ := bindOk h
  obtain ⟨_, _, h⟩ := bindOk h
  obtain ⟨_, hact, h⟩ := bindOk h
  obtain ⟨_, hflags, h⟩ := bindOk h
  obtain ⟨_, hdriver, h⟩ := bindOk h
  refine ⟨getDateTime_contains hact, getUInt_contains hflags, ?_⟩
  unfold getString at hdriver
  cases hl : lookupField kvs "driver" with
  | none => rw [hl] at hdriver; cases hdriver
  | some v => exact containsKey_of_lookup hl

theorem fromActive_requires {kvs : List (String × Json)}
    (h : decodeOk (DeviceObject.fromActive kvs) = true) :
    containsKey kvs "activated" = true := by
  unfold DeviceObject.fromActive at h
  obtain ⟨_, _, h⟩ := bindOk h
  obtain ⟨_, _, h⟩ := bindOk h
  obtain ⟨_, hact, h⟩ := bindOk h
  exact getDateTime_contains hact

theorem skyFromFields_requires {kvs : List (String × Json)}
    (h : decodeOk (SkyResponse.fromFields kvs) = true) :
    containsKey kvs "satellites" = true := by
  unfold SkyResponse.fromFields at h
  obtain ⟨_, _, h⟩ := bindOk h
  obtain ⟨_, _, h⟩ := bindOk h
  obtain ⟨_, _, h⟩ := bindOk h
  obtain ⟨_, _, h⟩ := bindOk h
  obtain ⟨_, _, h⟩ := bindOk h
  obtain ⟨_, _, h⟩ := bindOk h
  obtain ⟨_, _, h⟩ := bindOk h
  obtain ⟨_, _, h⟩ := bindOk h
  obtain ⟨_, _, h⟩ := bindOk h
  obtain ⟨_, _, h⟩ := bindOk h
  obtain ⟨_, hsats, h⟩ := bindOk h
  exact getSeq_contains hsats

/-! ### Claim theorems -/

/-- Claim C1: for every fix-report (TPV) JSON object in which `lat`, `lon`,
`track`, `speed`, `climb` and the required base fields (`time`, `mode`,
`ept`) are all present (well-typed, with the remaining fields well-typed
per the TPV schema), decoding selects the `FixWithCourse` shape and never
`FixBasic` or `Basic`: resolution picks the most specific shape whose
required fields are all present. -/
theorem tpv_resolves_fixWithCourse
    (kvs : List (String × Json)) (ts : String) (mq te la lo tr sp cl : ℚ)
    (hnd : noDupKeys kvs = true)
    (hin : keysIn kvs tpvKeys = true)
    (hdev : optStringOk kvs "device" = true)
    (htime : lookupField kvs "time" = some (Json.str ts))
    (hts : rfc3339Valid ts = true)
    (hmode : lookupField kvs "mode" = some (Json.num mq))
    (hm1 : mq.den = 1) (hm2 : 0 ≤ mq.num) (hm3 : mq.num ≤ 255)
    (hept : lookupField kvs "ept" = some (Json.num te))
    (hlat : lookupField kvs "lat" = some (Json.num la))
    (hepy : optF64Ok kvs "epy" = true)
    (hlon : lookupField kvs "lon" = some (Json.num lo))
    (hepx : optF64Ok kvs "epx" = true)
    (halt : optF64Ok kvs "alt" = true)
    (hepv : optF64Ok kvs "epv" = true)
    (htrack : lookupField kvs "track" = some (Json.num tr))
    (hepd : optF64Ok kvs "epd" = true)
    (hspeed : lookupField kvs "speed" = some (Json.num sp))
    (heps : optF64Ok kvs "eps" = true)
    (hclimb : lookupField kvs "climb" = some (Json.num cl))
    (hepc : optF64Ok kvs "epc" = true) :
    ∃ r, TpvResponse.deserialize (Json.obj kvs) = Except.ok r ∧
      r.isFixWithCourse = true := by
  have hcheck : checkObj tpvKeys true kvs = Except.ok () :=
    checkObj_ok hnd (fun _ => hin)
  obtain ⟨dev, hdev'⟩ := getOptString_ok hdev
  have htime' : getDateTime kvs "time" = Except.ok ⟨ts⟩ := by
    simp [getDateTime, htime, hts]
  have hmode' : getUInt 255 kvs "mode" = Except.ok mq.num.toNat := by
    simp [getUInt, hmode, hm1, hm2, hm3]
  have hept' : getF64 kvs "ept" = Except.ok te := by simp [getF64, hept]
  have hlat' : getF64 kvs "lat" = Except.ok la := by simp [getF64, hlat]
  have hlon' : getF64 kvs "lon" = Except.ok lo := by simp [getF64, hlon]
  have htrack' : getF64 kvs "track" = Except.ok tr := by
    simp [getF64, htrack]
  have hspeed' : getF64 kvs "speed" = Except.ok sp := by
    simp [getF64, hspeed]
  have hclimb' : getF64 kvs "climb" = Except.ok cl := by
    simp [getF64, hclimb]
  obtain ⟨epy, hepy'⟩ := getOptF64_ok hepy
  obtain ⟨epx, hepx'⟩ := getOptF64_ok hepx
  obtain ⟨altv, halt'⟩ := getOptF64_ok halt
  obtain ⟨epv, hepv'⟩ := getOptF64_ok hepv
  obtain ⟨epd, hepd'⟩ := getOptF64_ok hepd
  obtain ⟨epsv, heps'⟩ := getOptF64_ok heps
  obtain ⟨epc, hepc'⟩ := getOptF64_ok hepc
  have hfwc : TpvResponse.fromFixWithCourse kvs = Except.ok
      (TpvResponse.fixWithCourse dev ⟨ts⟩ mq.num.toNat te la epy lo epx
        altv epv tr epd sp epsv cl epc) := by
    unfold TpvResponse.fromFixWithCourse
    simp only [hcheck, hdev', htime', hmode', hept', hlat', hepy', hlon',
      hepx', halt', hepv', htrack', hepd', hspeed', heps', hclimb', hepc',
      ok_bind]
  refine ⟨TpvResponse.fixWithCourse dev ⟨ts⟩ mq.num.toNat te la epy lo epx
    altv epv tr epd sp epsv cl epc, ?_, rfl⟩
  simp only [TpvResponse.deserialize, hfwc]

/-- Witness for C1: the spec's worked TPV example (integral-valued fields)
decodes to the `FixWithCourse` shape. -/
theorem tpv_resolves_fixWithCourse_witness :
    ∃ r, TpvResponse.deserialize (Json.obj
      [("mode", Json.num 3), ("time", Json.str "2021-01-01T00:00:00Z"),
       ("ept", Json.num 1), ("lat", Json.num 30), ("epy", Json.num 3),
       ("lon", Json.num (-97)), ("epx", Json.num 3),
       ("track", Json.num 45), ("speed", Json.num 1),
       ("climb", Json.num 0)]) = Except.ok r ∧
      r.isFixWithCourse = true := by
  apply tpv_resolves_fixWithCourse <;> first | rfl | decide

/-- An object with a key outside the TPV schema fails all three TPV shapes
(each carries `deny_unknown_fields` over the same key set), so untagged
resolution reports no matching variant. -/
theorem tpvDeserialize_unknownKey {kvs : List (String × Json)}
    (h : keysIn kvs tpvKeys = false) :
    TpvResponse.deserialize (Json.obj kvs) =
      Except.error DecodeError.noMatchingVariant := by
  obtain ⟨e, he⟩ := decodeOk_false (checkObj_unknown h)
  have h1 : TpvResponse.fromFixWithCourse kvs = Except.error e := by
    unfold TpvResponse.fromFixWithCourse
    simp only [he, error_bind]
  have h2 : TpvResponse.fromFixBasic kvs = Except.error e := by
    unfold TpvResponse.fromFixBasic
    simp only [he, error_bind]
  have h3 : TpvResponse.fromBasic kvs = Except.error e := by
    unfold TpvResponse.fromBasic
    simp only [he, error_bind]
  simp only [TpvResponse.deserialize, h1, h2, h3]

/-- Claim C2: a fix-report object whose `FixWithCourse` required fields are
all present but which carries a key unknown to the TPV schema fails with a
hard decode error; it is never decoded as a looser shape such as
`FixBasic` or `Basic`. -/
theorem tpv_unknown_field_no_fallthrough
    (kvs : List (String × Json))
    (hlat : containsKey kvs "lat" = true)
    (hlon : containsKey kvs "lon" = true)
    (htrack : containsKey kvs "track" = true)
    (hspeed : containsKey kvs "speed" = true)
    (hclimb : containsKey kvs "climb" = true)
    (htime : containsKey kvs "time" = true)
    (hmode : containsKey kvs "mode" = true)
    (hept : containsKey kvs "ept" = true)
    (hunknown : keysIn kvs tpvKeys = false) :
    TpvResponse.deserialize (Json.obj kvs) =
      Except.error DecodeError.noMatchingVariant :=
  tpvDeserialize_unknownKey hunknown

/-- Witness for C2: a complete `FixWithCourse` message plus a stray key
`foo` is a hard error, not a `Basic` decode. -/
theorem tpv_unknown_field_no_fallthrough_witness :
    TpvResponse.deserialize (Json.obj
      [("mode", Json.num 3), ("time", Json.str "2021-01-01T00:00:00Z"),
       ("ept", Json.num 1), ("lat", Json.num 30), ("lon", Json.num (-97)),
       ("track", Json.num 45), ("speed", Json.num 1),
       ("climb", Json.num 0), ("foo", Json.null)]) =
      Except.error DecodeError.noMatchingVariant := by
  apply tpv_unknown_field_no_fallthrough <;> first | rfl | decide

/-- Claim C4: a fix-report object lacking all of `track`, `speed` and
`climb` but containing well-typed `lat`, `lon`, `mode`, `time`, `ept`
(remaining fields well-typed per the TPV schema) decodes to the `FixBasic`
shape. -/
theorem tpv_resolves_fixBasic
    (kvs : List (String × Json)) (ts : String) (mq te la lo : ℚ)
    (hnd : noDupKeys kvs = true)
    (hin : keysIn kvs tpvKeys = true)
    (hdev : optStringOk kvs "device" = true)
    (htime : lookupField kvs "time" = some (Json.str ts))
    (hts : rfc3339Valid ts = true)
    (hmode : lookupField kvs "mode" = some (Json.num mq))
    (hm1 : mq.den = 1) (hm2 : 0 ≤ mq.num) (hm3 : mq.num ≤ 255)
    (hept : lookupField kvs "ept" = some (Json.num te))
    (hlat : lookupField kvs "lat" = some (Json.num la))
    (hepy : optF64Ok kvs "epy" = true)
    (hlon : lookupField kvs "lon" = some (Json.num lo))
    (hepx : optF64Ok kvs "epx" = true)
    (halt : optF64Ok kvs "alt" = true)
    (hepv : optF64Ok kvs "epv" = true)
    (htrack : lookupField kvs "track" = none)
    (hepd : optF64Ok kvs "epd" = true)
    (hspeed : lookupField kvs "speed" = none)
    (heps : optF64Ok kvs "eps" = true)
    (hclimb : lookupField kvs "climb" = none)
    (hepc : optF64Ok kvs "epc" = true) :
    ∃ r, TpvResponse.deserialize (Json.obj kvs) = Except.ok r ∧
      r.isFixBasic = true := by
  have hcheck : checkObj tpvKeys true kvs = Except.ok () :=
    checkObj_ok hnd (fun _ => hin)
  obtain ⟨dev, hdev'⟩ := getOptString_ok hdev
  have htime' : getDateTime kvs "time" = Except.ok ⟨ts⟩ := by
    simp [getDateTime, htime, hts]
  have hmode' : getUInt 255 kvs "mode" = Except.ok mq.num.toNat := by
    simp [getUInt, hmode, hm1, hm2, hm3]
  have hept' : getF64 kvs "ept" = Except.ok te := by simp [getF64, hept]
  have hlat' : getF64 kvs "lat" = Except.ok la := by simp [getF64, hlat]
  have hlon' : getF64 kvs "lon" = Except.ok lo := by simp [getF64, hlon]
  obtain ⟨epy, hepy'⟩ := getOptF64_ok hepy
  obtain ⟨epx, hepx'⟩ := getOptF64_ok hepx
  obtain ⟨altv, halt'⟩ := getOptF64_ok halt
  obtain ⟨epv, hepv'⟩ := getOptF64_ok hepv
  obtain ⟨epd, hepd'⟩ := getOptF64_ok hepd
  obtain ⟨epsv, heps'⟩ := getOptF64_ok heps
  obtain ⟨epc, hepc'⟩ := getOptF64_ok hepc
  have htrackR : getF64 kvs "track" = Except.error
      (DecodeError.missingField "track") := by simp [getF64, htrack]
  have htrackO : getOptF64 kvs "track" = Except.ok none := by
    simp [getOptF64, htrack]
  have hspeedO : getOptF64 kvs "speed" = Except.ok none := by
    simp [getOptF64, hspeed]
  have hclimbO : getOptF64 kvs "climb" = Except.ok none := by
    simp [getOptF64, hclimb]
  have hfwc : TpvResponse.fromFixWithCourse kvs = Except.error
      (DecodeError.missingField "track") := by
    unfold TpvResponse.fromFixWithCourse
    simp only [hcheck, hdev', htime', hmode', hept', hlat', hepy', hlon',
      hepx', halt', hepv', htrackR, ok_bind, error_bind]
  have hfb : TpvResponse.fromFixBasic kvs = Except.ok
      (TpvResponse.fixBasic dev ⟨ts⟩ mq.num.toNat te la epy lo epx altv
        epv none epd none epsv none epc) := by
    unfold TpvResponse.fromFixBasic
    simp only [hcheck, hdev', htime', hmode', hept', hlat', hepy', hlon',
      hepx', halt', hepv', htrackO, hepd', hspeedO, heps', hclimbO, hepc',
      ok_bind]
  refine ⟨TpvResponse.fixBasic dev ⟨ts⟩ mq.num.toNat te la epy lo epx altv
    epv none epd none epsv none epc, ?_, rfl⟩
  simp only [TpvResponse.deserialize, hfwc, hfb]

/-- Witness for C4: a fix message without course data decodes to
`FixBasic`. -/
theorem tpv_resolves_fixBasic_witness :
    ∃ r, TpvResponse.deserialize (Json.obj
      [("mode", Json.num 2), ("time", Json.str "2021-01-01T00:00:00Z"),
       ("ept", Json.num 1), ("lat", Json.num 30),
       ("lon", Json.num (-97))]) = Except.ok r ∧
      r.isFixBasic = true := by
  apply tpv_resolves_fixBasic <;> first | rfl | decide

/-- Claim C5: a fix-report object (well-typed per the all-optional `Basic`
schema) in which `lat` is absent or `lon` is absent decodes to the `Basic`
shape, in which every field is optional. -/
theorem tpv_resolves_basic
    (kvs : List (String × Json))
    (hnd : noDupKeys kvs = true)
    (hin : keysIn kvs tpvKeys = true)
    (hdev : optStringOk kvs "device" = true)
    (htime : optDateTimeOk kvs "time" = true)
    (hmode : optUIntOk 255 kvs "mode" = true)
    (hept : optF64Ok kvs "ept" = true)
    (hlat : optF64Ok kvs "lat" = true)
    (hepy : optF64Ok kvs "epy" = true)
    (hlon : optF64Ok kvs "lon" = true)
    (hepx : optF64Ok kvs "epx" = true)
    (halt : optF64Ok kvs "alt" = true)
    (hepv : optF64Ok kvs "epv" = true)
    (htrack : optF64Ok kvs "track" = true)
    (hepd : optF64Ok kvs "epd" = true)
    (hspeed : optF64Ok kvs "speed" = true)
    (heps : optF64Ok kvs "eps" = true)
    (hclimb : optF64Ok kvs "climb" = true)
    (hepc : optF64Ok kvs "epc" = true)
    (hlatlon : lookupField kvs "lat" = none ∨
      lookupField kvs "lon" = none) :
    ∃ r, TpvResponse.deserialize (Json.obj kvs) = Except.ok r ∧
      r.isBasic = true := by
  have hfwcF : decodeOk (TpvResponse.fromFixWithCourse kvs) = false := by
    cases hx : decodeOk (TpvResponse.fromFixWithCourse kvs) with
    | false => rfl
    | true =>
        obtain ⟨hlat', hlon', _⟩ := fromFixWithCourse_requires hx
        cases hlatlon with
        | inl hl => simp [containsKey, hl] at hlat'
        | inr hl => simp [containsKey, hl] at hlon'
  have hfbF : decodeOk (TpvResponse.fromFixBasic kvs) = false := by
    cases hx : decodeOk (TpvResponse.fromFixBasic kvs) with
    | false => rfl
    | true =>
        obtain ⟨hlat', hlon'⟩ := fromFixBasic_requires hx
        cases hlatlon with
        | inl hl => simp [containsKey, hl] at hlat'
        | inr hl => simp [containsKey, hl] at hlon'
  have hcheck : checkObj tpvKeys true kvs = Except.ok () :=
    checkObj_ok hnd (fun _ => hin)
  obtain ⟨dev, hdev'⟩ := getOptString_ok hdev
  obtain ⟨tv, htime'⟩ := getOptDateTime_ok htime
  obtain ⟨mv, hmode'⟩ := getOptUInt_ok hmode
  obtain ⟨te, hept'⟩ := getOptF64_ok hept
  obtain ⟨la, hlat'⟩ := getOptF64_ok hlat
  obtain ⟨epy, hepy'⟩ := getOptF64_ok hepy
  obtain ⟨lo, hlon'⟩ := getOptF64_ok hlon
  obtain ⟨epx, hepx'⟩ := getOptF64_ok hepx
  obtain ⟨altv, halt'⟩ := getOptF64_ok halt
  obtain ⟨epv, hepv'⟩ := getOptF64_ok hepv
  obtain ⟨tr, htrack'⟩ := getOptF64_ok htrack
  obtain ⟨epd, hepd'⟩ := getOptF64_ok hepd
  obtain ⟨sp, hspeed'⟩ := getOptF64_ok hspeed
  obtain ⟨epsv, heps'⟩ := getOptF64_ok heps
  obtain ⟨cl, hclimb'⟩ := getOptF64_ok hclimb
  obtain ⟨epc, hepc'⟩ := getOptF64_ok hepc
  have hb : TpvResponse.fromBasic kvs = Except.ok
      (TpvResponse.basic dev tv mv te la epy lo epx altv epv tr epd sp
        epsv cl epc) := by
    unfold TpvResponse.fromBasic
    simp only [hcheck, hdev', htime', hmode', hept', hlat', hepy', hlon',
      hepx', halt', hepv', htrack', hepd', hspeed', heps', hclimb', hepc',
      ok_bind]
  obtain ⟨e1, he1⟩ := decodeOk_false hfwcF
  obtain ⟨e2, he2⟩ := decodeOk_false hfbF
  refine ⟨TpvResponse.basic dev tv mv te la epy lo epx altv epv tr epd sp
    epsv cl epc, ?_, rfl⟩
  simp only [TpvResponse.deserialize, he1, he2, hb]

/-- Witness for C5: a fix report with no position yet decodes to `Basic`. -/
theorem tpv_resolves_basic_witness :
    ∃ r, TpvResponse.deserialize (Json.obj
      [("mode", Json.num 1), ("device", Json.str "ttyUSB0")]) =
      Except.ok r ∧ r.isBasic = true := by
  apply tpv_resolves_basic <;> first | rfl | decide | exact Or.inl rfl

/-- Claim C6: a device record with a well-typed `activated` but no `driver`
and no `flags` (remaining fields well-typed per the device schema) decodes
to the `Active` shape, never `ActiveSeenPackets`; and a device record
without `activated` (with a well-typed optional `path`) decodes to
`Inactive`. -/
theorem device_resolution :
    (∀ (kvs : List (String × Json)) (ts : String),
      noDupKeys kvs = true →
      lookupField kvs "activated" = some (Json.str ts) →
      rfc3339Valid ts = true →
      lookupField kvs "flags" = none →
      lookupField kvs "driver" = none →
      optStringOk kvs "path" = true →
      optStringOk kvs "subtype" = true →
      optUIntOk 4294967295 kvs "bps" = true →
      optStringOk kvs "parity" = true →
      optStringOk kvs "stopbits" = true →
      optUIntOk 255 kvs "native" = true →
      optF64Ok kvs "cycle" = true →
      optF64Ok kvs "minicycle" = true →
      ∃ r, DeviceObject.deserialize (Json.obj kvs) = Except.ok r ∧
        r.isActive = true) ∧
    (∀ kvs : List (String × Json),
      noDupKeys kvs = true →
      lookupField kvs "activated" = none →
      optStringOk kvs "path" = true →
      ∃ p, DeviceObject.deserialize (Json.obj kvs) =
        Except.ok (DeviceObject.inactive p)) := by
  constructor
  · intro kvs ts hnd hact hts hflags hdriver hpath hsubtype hbps hparity
      hstop hnative hcycle hmini
    have hcheck1 : checkObj deviceSeenKeys false kvs = Except.ok () :=
      checkObj_ok hnd (by simp)
    have hcheck2 : checkObj deviceActiveKeys false kvs = Except.ok () :=
      checkObj_ok hnd (by simp)
    obtain ⟨p, hp⟩ := getOptString_ok hpath
    have hact' : getDateTime kvs "activated" = Except.ok ⟨ts⟩ := by
      simp [getDateTime, hact, hts]
    have hflags' : getUInt 255 kvs "flags" = Except.error
        (DecodeError.missingField "flags") := by simp [getUInt, hflags]
    obtain ⟨st, hst⟩ := getOptString_ok hsubtype
    obtain ⟨bps, hbps'⟩ := getOptUInt_ok hbps
    obtain ⟨par, hpar⟩ := getOptString_ok hparity
    obtain ⟨stop, hstop'⟩ := getOptString_ok hstop
    obtain ⟨nat, hnat⟩ := getOptUInt_ok hnative
    obtain ⟨cyc, hcyc⟩ := getOptF64_ok hcycle
    obtain ⟨mini, hmini'⟩ := getOptF64_ok hmini
    have hasp : DeviceObject.fromActiveSeenPackets kvs = Except.error
        (DecodeError.missingField "flags") := by
      unfold DeviceObject.fromActiveSeenPackets
      simp only [hcheck1, hp, hact', hflags', ok_bind, error_bind]
    have hactv : DeviceObject.fromActive kvs = Except.ok
        (DeviceObject.active p ⟨ts⟩ st bps par stop nat cyc mini) := by
      unfold DeviceObject.fromActive
      simp only [hcheck2, hp, hact', hst, hbps', hpar, hstop', hnat, hcyc,
        hmini', ok_bind]
    refine ⟨DeviceObject.active p ⟨ts⟩ st bps par stop nat cyc mini, ?_,
      rfl⟩
    simp only [DeviceObject.deserialize, hasp, hactv]
  · intro kvs hnd hact hpath
    have haspF : decodeOk (DeviceObject.fromActiveSeenPackets kvs) =
        false := by
      cases hx : decodeOk (DeviceObject.fromActiveSeenPackets kvs) with
      | false => rfl
      | true =>
          obtain ⟨hc, _, _⟩ := fromActiveSeenPackets_requires hx
          simp [containsKey, hact] at hc
    have hactF : decodeOk (DeviceObject.fromActive kvs) = false := by
      cases hx : decodeOk (DeviceObject.fromActive kvs) with
      | false => rfl
      | true =>
          have hc := fromActive_requires hx
          simp [containsKey, hact] at hc
    have hcheckI : checkObj ["path"] false kvs = Except.ok () :=
      checkObj_ok hnd (by simp)
    obtain ⟨p, hp⟩ := getOptString_ok hpath
    have hinact : DeviceObject.fromInactive kvs = Except.ok
        (DeviceObject.inactive p) := by
      unfold DeviceObject.fromInactive
      simp only [hcheckI, hp, ok_bind]
    obtain ⟨e1, he1⟩ := decodeOk_false haspF
    obtain ⟨e2, he2⟩ := decodeOk_false hactF
    refine ⟨p, ?_⟩
    simp only [DeviceObject.deserialize, he1, he2, hinact]

/-- Witness for C6: a device record with only `activated` decodes to
`Active`; a device record with only `path` decodes to `Inactive`. -/
theorem device_resolution_witness :
    (∃ r, DeviceObject.deserialize (Json.obj
      [("activated", Json.str "2021-01-01T00:00:00Z")]) = Except.ok r ∧
      r.isActive = true) ∧
    (∃ p, DeviceObject.deserialize (Json.obj
      [("path", Json.str "ttyUSB0")]) =
      Except.ok (DeviceObject.inactive p)) := by
  constructor
  · apply device_resolution.1 <;> first | rfl | decide
  · apply device_resolution.2 <;> first | rfl | decide

/-- Claim C10: a SKY object lacking the `satellites` key fails to decode —
the satellite sequence is a required field with no default — even when
every other field is also absent (the empty object fails with exactly a
missing `satellites` field error). -/
theorem sky_requires_satellites :
    (∀ kvs : List (String × Json),
      lookupField kvs "satellites" = none →
      decodeOk (SkyResponse.deserialize (Json.obj kvs)) = false) ∧
    SkyResponse.deserialize (Json.obj []) =
      Except.error (DecodeError.missingField "satellites") := by
  constructor
  · intro kvs h
    cases hx : decodeOk (SkyResponse.deserialize (Json.obj kvs)) with
    | false => rfl
    | true =>
        have hx' : decodeOk (SkyResponse.fromFields kvs) = true := hx
        have hc := skyFromFields_requires hx'
        simp [containsKey, h] at hc
  · rfl

/-- Witness for C10: a SKY object with only `device` fails to decode. -/
theorem sky_requires_satellites_witness :
    decodeOk (SkyResponse.deserialize (Json.obj
      [("device", Json.str "gps0")])) = false :=
  sky_requires_satellites.1 _ rfl

/-- Claim C3: a top-level object whose `class` tag is absent, or whose tag
is not one of the eight recognized values, fails to decode; in particular
the input with `class` equal to `FOO` fails with an unknown-variant
error. -/
theorem response_unknown_tag_rejected :
    (∀ kvs : List (String × Json),
      lookupField kvs "class" = none →
      Response.deserialize (Json.obj kvs) =
        Except.error (DecodeError.missingField "class")) ∧
    (∀ (kvs : List (String × Json)) (tag : String),
      countKey kvs "class" = 1 →
      lookupField kvs "class" = some (Json.str tag) →
      knownTag tag = false →
      Response.deserialize (Json.obj kvs) =
        Except.error (DecodeError.unknownVariant tag)) ∧
    Response.deserialize (Json.obj [("class", Json.str "FOO")]) =
      Except.error (DecodeError.unknownVariant "FOO") := by
  refine ⟨?_, ?_, rfl⟩
  · intro kvs h
    have hcnt := countKey_eq_zero h
    simp [Response.deserialize, hcnt, h]
  · intro kvs tag hcount hclass hkt
    simp only [knownTag, Bool.or_eq_false_iff, decide_eq_false_iff_not]
      at hkt
    obtain ⟨⟨⟨⟨⟨⟨⟨h1, h2⟩, h3⟩, h4⟩, h5⟩, h6⟩, h7⟩, h8⟩ := hkt
    simp [Response.deserialize, hcount, hclass, h1, h2, h3, h4, h5, h6,
      h7, h8]

/-- Witness for C3: an object with no `class` key, and an object tagged
`BAR`, both fail. -/
theorem response_unknown_tag_rejected_witness :
    Response.deserialize (Json.obj [("device", Json.str "gps0")]) =
      Except.error (DecodeError.missingField "class") ∧
    Response.deserialize (Json.obj [("class", Json.str "BAR")]) =
      Except.error (DecodeError.unknownVariant "BAR") :=
  ⟨response_unknown_tag_rejected.1 _ rfl,
   response_unknown_tag_rejected.2.1 _ "BAR" rfl rfl rfl⟩

@[simp]
theorem map_error {α β : Type} (f : α → β) (e : DecodeError) :
    Except.map f (Except.error e : Except DecodeError α) =
      Except.error e := rfl

@[simp]
theorem map_ok {α β : Type} (f : α → β) (a : α) :
    Except.map f (Except.ok a : Except DecodeError α) =
      Except.ok (f a) := rfl

/-- Counterexample to claim C7 as stated: the envelope schema is not
strict for every class.  An `ERROR`-tagged envelope carrying the unknown
wire key `foo` decodes successfully (the `Error` payload ignores unknown
fields), instead of failing. -/
theorem response_unknown_envelope_key_tolerated :
    Response.deserialize (Json.obj
      [("class", Json.str "ERROR"), ("message", Json.str "hi"),
       ("foo", Json.null)]) = Except.ok (Response.error "hi") := rfl

/-- Claim C7 (amended): unknown wire keys in the envelope are rejected only
for the fix-report (TPV) family, whose payload schema denies unknown
fields; a `TPV`-tagged envelope whose remaining keys are not all in the
TPV schema fails with a hard error.  Other classes tolerate unknown keys,
as the counterexample shows. -/
theorem response_strict_only_for_tpv
    (kvs : List (String × Json))
    (hclass : lookupField kvs "class" = some (Json.str "TPV"))
    (hcount : countKey kvs "class" = 1)
    (hunknown : keysIn (removeKey kvs "class") tpvKeys = false) :
    Response.deserialize (Json.obj kvs) =
      Except.error DecodeError.noMatchingVariant := by
  have h := tpvDeserialize_unknownKey hunknown
  simp [Response.deserialize, hcount, hclass, h]

/-- Witness for C7 (amended): a `TPV` envelope with a stray key fails. -/
theorem response_strict_only_for_tpv_witness :
    Response.deserialize (Json.obj
      [("class", Json.str "TPV"), ("foo", Json.null)]) =
      Except.error DecodeError.noMatchingVariant := by
  apply response_strict_only_for_tpv <;> first | rfl | decide

/-- Counterexample to claim C8 as stated: encoding does not omit non-enable
fields that equal their documented default.  Serializing the all-default
`WatchObject` emits `json` (default `false`) on the wire. -/
theorem watch_default_field_emitted :
    lookupField (WatchObject.serializeFields WatchObject.default) "json" =
      some (Json.bool false) := rfl

/-- Claim C8 (amended): encoding a `WatchObject` emits every schema field
under its unchanged wire key (the derive carries no skip or rename
attributes), including fields equal to their documented defaults, with
absent optional fields emitted as `null`. -/
theorem watch_serialize_emits_every_field
    (w : WatchObject) (k : String) (hk : k ∈ watchKeys) :
    ∃ v, lookupField (WatchObject.serializeFields w) k = some v := by
  fin_cases hk <;> exact ⟨_, rfl⟩

/-- Witness for C8 (amended): `json` is present in the encoded default
`WatchObject`. -/
theorem watch_serialize_emits_every_field_witness :
    ∃ v, lookupField (WatchObject.serializeFields WatchObject.default)
      "json" = some v :=
  watch_serialize_emits_every_field WatchObject.default "json" (by decide)

/-- Claim C9: encoding the all-default `WatchObject` and decoding the
result reproduces the original `WatchObject`, its defaulted fields
decoding back to the same defaults. -/
theorem watch_default_roundtrip :
    WatchObject.deserialize (WatchObject.serialize WatchObject.default) =
      Except.ok WatchObject.default := rfl

end Gpsd
